import Mathlib

/-!
Verification of the `Stopwatch` class from `plantersensor/deploy/stopwatch.py`.

The class keeps three fields: `start_time` (the tick recorded when the current
segment was opened), `total_elapsed` (milliseconds accumulated from completed
segments; a Python `int`, so modelled as `Int`), and `running : Bool`.

The clock is MicroPython's `time.ticks_ms()`, a wrapping counter of period `P`
(a power of two on real ports; kept as a parameter here), and differences are
taken with `time.ticks_diff(a, b)`, which returns the signed representative of
`a - b` modulo `P` lying in `[-P/2, P/2)`.  Each method that reads the clock is
embedded as a function taking the period `P` and the current tick `now` as
explicit arguments; query methods return values and cannot mutate state by
construction, mirroring the Python methods that perform no assignment.
-/

/-- MicroPython `time.ticks_diff(a, b)`: the signed representative of `a - b`
modulo the tick period `P`, in the half-open interval `[-P/2, P/2)`. -/
def ticks_diff (P a b : Nat) : Int :=
  (((a : Int) - (b : Int) + (P : Int) / 2) % (P : Int)) - (P : Int) / 2

/-- State of `Stopwatch`: `start_time`, `total_elapsed`, `running`,
as set up by `Stopwatch.__init__`. -/
structure Stopwatch where
  start_time : Nat
  total_elapsed : Int
  running : Bool
deriving DecidableEq, Repr

/-- `Stopwatch.__init__`: zeroed, stopped. -/
def Stopwatch.init : Stopwatch :=
  { start_time := 0, total_elapsed := 0, running := false }

/-- `Stopwatch.start(self)`: if not running, record the current tick and set
`running`; otherwise do nothing. -/
def Stopwatch.start (now : Nat) (s : Stopwatch) : Stopwatch :=
  if s.running then s
  else { s with start_time := now, running := true }

/-- `Stopwatch.stop(self)`: if running, add `ticks_diff(now, start_time)` to
`total_elapsed` and clear `running`; otherwise do nothing. -/
def Stopwatch.stop (P now : Nat) (s : Stopwatch) : Stopwatch :=
  if s.running then
    { s with total_elapsed := s.total_elapsed + ticks_diff P now s.start_time,
             running := false }
  else s

/-- `Stopwatch.reset(self)`: unconditionally zero both fields and clear
`running`. -/
def Stopwatch.reset (_ : Stopwatch) : Stopwatch :=
  { start_time := 0, total_elapsed := 0, running := false }

/-- `Stopwatch.get_elapsed_time(self)`: `total_elapsed` plus, when running, the
open segment's `ticks_diff(now, start_time)`.  The Python method performs no
assignment, so it is embedded as a value-returning function. -/
def Stopwatch.get_elapsed_time (P now : Nat) (s : Stopwatch) : Int :=
  if s.running then s.total_elapsed + ticks_diff P now s.start_time
  else s.total_elapsed

/-- `Stopwatch.is_running(self)`. -/
def Stopwatch.is_running (s : Stopwatch) : Bool :=
  s.running

/-- Python `f"{n:0wd}"`: decimal digits left-padded with zeros to width `w`,
a leading minus sign counting toward the width. -/
def padZeros (w : Nat) (n : Int) : String :=
  let digits := toString n.natAbs
  if n < 0 then
    "-" ++ String.mk (List.replicate (w - 1 - digits.length) '0') ++ digits
  else
    String.mk (List.replicate (w - digits.length) '0') ++ digits

/-- `Stopwatch.get_formatted_time(self, format_type)`: fixed-radix
decomposition of the elapsed milliseconds, rendered in one of three named
styles, with a bare `"{elapsed}ms"` fallback for any other `format_type`.
Python `//` and `%` on ints are floor division and floor modulus, which agree
with Lean's Euclidean `/` and `%` on `Int` for the positive divisors used
here. -/
def Stopwatch.get_formatted_time (P now : Nat) (s : Stopwatch)
    (format_type : String) : String :=
  let elapsed := s.get_elapsed_time P now
  let hours := elapsed / 3600000
  let minutes := (elapsed % 3600000) / 60000
  let seconds := (elapsed % 60000) / 1000
  let milliseconds := elapsed % 1000
  if format_type == "full" then
    padZeros 2 hours ++ ":" ++ padZeros 2 minutes ++ ":" ++ padZeros 2 seconds
      ++ "." ++ padZeros 3 milliseconds
  else if format_type == "short" then
    if hours > 0 then
      padZeros 2 hours ++ ":" ++ padZeros 2 minutes ++ ":" ++ padZeros 2 seconds
    else
      padZeros 2 minutes ++ ":" ++ padZeros 2 seconds
  else if format_type == "minimal" then
    if hours > 0 then
      toString hours ++ "h " ++ toString minutes ++ "m"
    else if minutes > 0 then
      toString minutes ++ "m " ++ toString seconds ++ "s"
    else
      toString seconds ++ "." ++ padZeros 3 milliseconds ++ "s"
  else
    toString elapsed ++ "ms"

/-- The dictionary returned by `Stopwatch.get_session_stats`. -/
structure SessionStats where
  total_ms : Int
  hours : Int
  minutes : Int
  seconds : Int
  milliseconds : Int
  is_running : Bool
  formatted : String
deriving DecidableEq, Repr

/-- `Stopwatch.get_session_stats(self)`: the fixed-radix decomposition of the
elapsed time together with the running flag and the default-formatted string
(the Python call `get_formatted_time()` defaults `format_type` to
`'full'`). -/
def Stopwatch.get_session_stats (P now : Nat) (s : Stopwatch) : SessionStats :=
  let elapsed := s.get_elapsed_time P now
  { total_ms := elapsed,
    hours := elapsed / 3600000,
    minutes := (elapsed % 3600000) / 60000,
    seconds := (elapsed % 60000) / 1000,
    milliseconds := elapsed % 1000,
    is_running := s.running,
    formatted := s.get_formatted_time P now "full" }

/-- An externally driven call to the stopwatch: `start()` or `stop()`, tagged
with the tick `time.ticks_ms()` returns at that moment. -/
inductive Ev where
  | start : Nat → Ev
  | stop : Nat → Ev
deriving DecidableEq, Repr

/-- The tick at which an event occurs. -/
def Ev.tick : Ev → Nat
  | Ev.start t => t
  | Ev.stop t => t

/-- One driven call applied to a state. -/
def stepEv (P : Nat) (s : Stopwatch) : Ev → Stopwatch
  | Ev.start t => Stopwatch.start t s
  | Ev.stop t => Stopwatch.stop P t s

/-- A finite sequence of driven calls applied in order. -/
def runEvs (P : Nat) (s : Stopwatch) : List Ev → Stopwatch
  | [] => s
  | e :: rest => runEvs P (stepEv P s e) rest

/-- The clock readings presented to consecutive calls are non-decreasing
modulo wraparound: each consecutive pair of event ticks has a nonnegative
wrapped difference. -/
def clock_nondecreasing (P : Nat) : List Ev → Bool
  | e1 :: e2 :: rest =>
      decide (0 ≤ ticks_diff P e2.tick e1.tick)
        && clock_nondecreasing P (e2 :: rest)
  | _ => true

/-- Every `stop` call in the sequence closes its segment with a nonnegative
wrapped tick difference (the segment spans less than half the tick period). -/
def segments_nonneg (P : Nat) (s : Stopwatch) : List Ev → Bool
  | [] => true
  | Ev.start t :: rest => segments_nonneg P (stepEv P s (Ev.start t)) rest
  | Ev.stop t :: rest =>
      (!s.running || decide (0 ≤ ticks_diff P t s.start_time))
        && segments_nonneg P (stepEv P s (Ev.stop t)) rest

/-! ## Helper lemmas -/

lemma ticks_diff_wrap_helper (k : Nat) (hk : 16 ≤ k) :
    ticks_diff (2 * k) 5 (2 * k - 10) = 15 := by
  unfold ticks_diff
  have hcast : (((2 * k - 10 : Nat)) : Int) = 2 * (k : Int) - 10 := by omega
  have hdiv : ((2 * k : Nat) : Int) / 2 = (k : Int) := by push_cast; omega
  have h5 : ((5 : Nat) : Int) = (5 : Int) := by norm_num
  have hP : ((2 * k : Nat) : Int) = 2 * (k : Int) := by push_cast; ring
  rw [hcast, hdiv, h5, hP]
  have h1 : (5 : Int) - (2 * (k : Int) - 10) + (k : Int)
      = (15 + (k : Int)) + (2 * (k : Int)) * (-1) := by ring
  rw [h1, Int.add_mul_emod_self_left,
    Int.emod_eq_of_lt (by omega) (by omega : (15 + (k : Int)) < 2 * k)]
  omega

lemma runEvs_append (P : Nat) (evs1 evs2 : List Ev) (s : Stopwatch) :
    runEvs P s (evs1 ++ evs2) = runEvs P (runEvs P s evs1) evs2 := by
  induction evs1 generalizing s with
  | nil => rfl
  | cons e rest ih => simp only [List.cons_append, runEvs]; exact ih _

lemma segments_nonneg_append (P : Nat) (evs1 evs2 : List Ev) (s : Stopwatch)
    (h : segments_nonneg P s (evs1 ++ evs2) = true) :
    segments_nonneg P (runEvs P s evs1) evs2 = true := by
  induction evs1 generalizing s with
  | nil => exact h
  | cons e rest ih =>
    cases e with
    | start t =>
      simp only [List.cons_append, segments_nonneg, runEvs] at h ⊢
      exact ih _ h
    | stop t =>
      simp only [List.cons_append, segments_nonneg, Bool.and_eq_true, runEvs] at h ⊢
      exact ih _ h.2

lemma total_elapsed_mono (P : Nat) (evs : List Ev) (s : Stopwatch)
    (h : segments_nonneg P s evs = true) :
    s.total_elapsed ≤ (runEvs P s evs).total_elapsed := by
  induction evs generalizing s with
  | nil => exact le_refl _
  | cons e rest ih =>
    cases e with
    | start t =>
      simp only [segments_nonneg] at h
      have hstep : (stepEv P s (Ev.start t)).total_elapsed = s.total_elapsed := by
        simp only [stepEv, Stopwatch.start]
        split <;> rfl
      simp only [runEvs]
      rw [← hstep]
      exact ih _ h
    | stop t =>
      simp only [segments_nonneg, Bool.and_eq_true, Bool.or_eq_true,
        Bool.not_eq_true', decide_eq_true_eq] at h
      obtain ⟨h1, h2⟩ := h
      have hstep : s.total_elapsed ≤ (stepEv P s (Ev.stop t)).total_elapsed := by
        simp only [stepEv, Stopwatch.stop]
        by_cases hr : s.running
        · rcases h1 with h1 | h1
          · rw [hr] at h1; cases h1
          · simp only [hr, if_true]
            linarith
        · simp [hr]
      simp only [runEvs]
      exact le_trans hstep (ih _ h2)

/-! ## Claim theorems -/

/-- C1: with a tick counter wrapping at boundary `M`, a segment started at tick
`M - 10` and stopped (or queried) at tick `5` — one wraparound in between —
contributes exactly `15` ticks, both in `stop()`'s accumulation and in
`get_elapsed_time()`'s read-through, for any previously accumulated total. -/
theorem stop_and_elapsed_wraparound (M : Nat) (hM : 30 < M) (hEven : M % 2 = 0)
    (T : Int) :
    (Stopwatch.stop M 5 ⟨M - 10, T, true⟩).total_elapsed = T + 15 ∧
    Stopwatch.get_elapsed_time M 5 ⟨M - 10, T, true⟩ = T + 15 := by
  obtain ⟨k, hk⟩ : ∃ k, M = 2 * k := ⟨M / 2, by omega⟩
  subst hk
  have hd := ticks_diff_wrap_helper k (by omega)
  constructor
  · simp only [Stopwatch.stop, if_true]
    rw [hd]
  · simp only [Stopwatch.get_elapsed_time, if_true]
    rw [hd]

/-- C1 witness: the wraparound theorem at the concrete boundary `M = 32` with
zero prior total. -/
theorem stop_and_elapsed_wraparound_witness :
    (Stopwatch.stop 32 5 ⟨32 - 10, 0, true⟩).total_elapsed = 0 + 15 ∧
    Stopwatch.get_elapsed_time 32 5 ⟨32 - 10, 0, true⟩ = 0 + 15 :=
  stop_and_elapsed_wraparound 32 (by decide) (by decide) 0

/-- C2 counterexample: `stop()` does not clamp.  From a running state with
`start_time = 5` and `total_elapsed = 0`, stopping at tick `22` with period
`32` adds `ticks_diff 32 22 5 = -15`, so the accumulated total becomes `-15`:
it decreases across the `stop()` call and is negative. -/
theorem stop_not_clamped_counterexample :
    (Stopwatch.stop 32 22 ⟨5, 0, true⟩).total_elapsed = -15 ∧
    (Stopwatch.stop 32 22 ⟨5, 0, true⟩).total_elapsed
      < (Stopwatch.mk 5 0 true).total_elapsed := by decide

/-- C2 amended: `stop()` adds the signed wrapped tick difference with no
clamping; the accumulated total does not decrease provided that difference is
nonnegative (segment shorter than half the tick period). -/
theorem stop_accumulates_nonneg (P now : Nat) (s : Stopwatch)
    (h : 0 ≤ ticks_diff P now s.start_time) :
    s.total_elapsed ≤ (Stopwatch.stop P now s).total_elapsed := by
  unfold Stopwatch.stop
  by_cases hr : s.running
  · simp only [hr, if_true]
    linarith
  · simp [hr]

/-- C2 amended witness: stopping at tick `10` a segment started at tick `0`
(period `32`) does not decrease the total. -/
theorem stop_accumulates_nonneg_witness :
    (Stopwatch.mk 0 0 true).total_elapsed
      ≤ (Stopwatch.stop 32 10 ⟨0, 0, true⟩).total_elapsed :=
  stop_accumulates_nonneg 32 10 ⟨0, 0, true⟩ (by decide)

/-- C3: `get_elapsed_time()` (a value-returning function in this embedding,
mirroring the assignment-free Python method) returns `total_elapsed` when
stopped, and `total_elapsed + ticks_diff(now, start_time)` when running — in
which case it agrees with the total that `stop()` at the same tick would
leave. -/
theorem get_elapsed_time_spec (P now : Nat) (s : Stopwatch) :
    (s.running = false → Stopwatch.get_elapsed_time P now s = s.total_elapsed) ∧
    (s.running = true →
      Stopwatch.get_elapsed_time P now s
        = s.total_elapsed + ticks_diff P now s.start_time) ∧
    (s.running = true →
      Stopwatch.get_elapsed_time P now s
        = (Stopwatch.stop P now s).total_elapsed) := by
  refine ⟨fun h => ?_, fun h => ?_, fun h => ?_⟩ <;>
    simp [Stopwatch.get_elapsed_time, Stopwatch.stop, h]

/-- C3 witness: both branches at concrete states. -/
theorem get_elapsed_time_spec_witness :
    Stopwatch.get_elapsed_time 32 5 ⟨0, 7, false⟩ = 7 ∧
    Stopwatch.get_elapsed_time 32 9 ⟨4, 7, true⟩ = 7 + ticks_diff 32 9 4 :=
  ⟨(get_elapsed_time_spec 32 5 ⟨0, 7, false⟩).1 rfl,
   (get_elapsed_time_spec 32 9 ⟨4, 7, true⟩).2.1 rfl⟩

/-- C4: after `reset()`, from any prior state and at any clock reading, the
elapsed time is `0` and the stopwatch is not running; an open segment is
discarded, not accumulated. -/
theorem reset_clears (P now : Nat) (s : Stopwatch) :
    Stopwatch.get_elapsed_time P now (Stopwatch.reset s) = 0 ∧
    (Stopwatch.reset s).is_running = false :=
  ⟨rfl, rfl⟩

/-- C5: `start()` is idempotent — a second consecutive call (at any tick) is a
no-op, leaving `segment_start_tick` and every other field exactly as the first
call left them. -/
theorem start_idempotent (n1 n2 : Nat) (s : Stopwatch) :
    Stopwatch.start n2 (Stopwatch.start n1 s) = Stopwatch.start n1 s := by
  unfold Stopwatch.start
  by_cases h : s.running <;> simp [h]

/-- C6: `stop()` in a non-running state leaves the entire state unchanged. -/
theorem stop_when_stopped_noop (P now : Nat) (s : Stopwatch)
    (h : s.running = false) :
    Stopwatch.stop P now s = s := by
  simp [Stopwatch.stop, h]

/-- C6 witness: the no-op at a concrete stopped state. -/
theorem stop_when_stopped_noop_witness :
    Stopwatch.stop 32 5 ⟨1, 2, false⟩ = ⟨1, 2, false⟩ :=
  stop_when_stopped_noop 32 5 ⟨1, 2, false⟩ rfl

/-- C7: formatting of `elapsed() = 3665123` ms in the three styles, and of
`elapsed() = 90061000` ms in the full style (hours unclamped past 24). -/
theorem get_formatted_time_examples :
    Stopwatch.get_formatted_time 32 0 ⟨0, 3665123, false⟩ "full"
      = "01:01:05.123" ∧
    Stopwatch.get_formatted_time 32 0 ⟨0, 3665123, false⟩ "short"
      = "01:01:05" ∧
    Stopwatch.get_formatted_time 32 0 ⟨0, 3665123, false⟩ "minimal"
      = "1h 1m" ∧
    Stopwatch.get_formatted_time 32 0 ⟨0, 90061000, false⟩ "full"
      = "25:01:01.000" := by decide

/-- C8: the scenario start at tick 0, `elapsed()` at tick 500 while running is
500; `stop()` at 500 accumulates 500; `start()` at 700 and `stop()` at 900
accumulate to 700; `get_session_stats` then reports total 700 ms, 0 h, 0 min,
0 s, 700 ms remainder, not running.  Run at the MicroPython tick period
`2^30`. -/
theorem scenario_session_stats :
    Stopwatch.get_elapsed_time 1073741824 500 (Stopwatch.start 0 Stopwatch.init)
      = 500 ∧
    (Stopwatch.stop 1073741824 500
        (Stopwatch.start 0 Stopwatch.init)).total_elapsed = 500 ∧
    (Stopwatch.stop 1073741824 900 (Stopwatch.start 700 (Stopwatch.stop
        1073741824 500 (Stopwatch.start 0 Stopwatch.init)))).total_elapsed
      = 700 ∧
    (Stopwatch.get_session_stats 1073741824 900 (Stopwatch.stop 1073741824 900
        (Stopwatch.start 700 (Stopwatch.stop 1073741824 500
          (Stopwatch.start 0 Stopwatch.init)))))
      = { total_ms := 700, hours := 0, minutes := 0, seconds := 0,
          milliseconds := 700, is_running := false,
          formatted := "00:00:00.700" } := by decide

/-- C9 counterexample: with a tick counter of period `32` and the plainly
non-decreasing clock readings `0, 10, 20` (wrapped difference of each
consecutive pair is nonnegative), the trace `start@0, start@10, stop@20`
leads from the initial stop-state (elapsed `0`) to a stop-state with elapsed
`-12`: the open segment spanned more than half the period, so elapsed time
decreased between two stop-states. -/
theorem elapsed_monotone_counterexample :
    clock_nondecreasing 32 [Ev.start 0, Ev.start 10, Ev.stop 20] = true ∧
    Stopwatch.init.running = false ∧
    (runEvs 32 Stopwatch.init [Ev.start 0, Ev.start 10, Ev.stop 20]).running
      = false ∧
    Stopwatch.get_elapsed_time 32 20
        (runEvs 32 Stopwatch.init [Ev.start 0, Ev.start 10, Ev.stop 20])
      < Stopwatch.get_elapsed_time 32 0 Stopwatch.init := by decide

/-- C9 amended: across any finite sequence of `start`/`stop` calls in which
every `stop` closes its segment with a nonnegative wrapped tick difference
(each segment spans less than half the tick period), the elapsed time observed
in a later stop-state is at least the elapsed time observed in any earlier
stop-state. -/
theorem elapsed_monotone_across_stops (P t1 t2 : Nat) (s : Stopwatch)
    (evs1 evs2 : List Ev)
    (hg : segments_nonneg P s (evs1 ++ evs2) = true)
    (h1 : (runEvs P s evs1).running = false)
    (h2 : (runEvs P s (evs1 ++ evs2)).running = false) :
    Stopwatch.get_elapsed_time P t1 (runEvs P s evs1)
      ≤ Stopwatch.get_elapsed_time P t2 (runEvs P s (evs1 ++ evs2)) := by
  have hmono := total_elapsed_mono P evs2 (runEvs P s evs1)
    (segments_nonneg_append P evs1 evs2 s hg)
  rw [runEvs_append] at h2 ⊢
  simp only [Stopwatch.get_elapsed_time, h1, h2, if_false]
  exact hmono

/-- C9 amended witness: two segments of 5 ticks each, observed at the two
stop-states (elapsed 5, then 10). -/
theorem elapsed_monotone_across_stops_witness :
    Stopwatch.get_elapsed_time 32 5
        (runEvs 32 Stopwatch.init [Ev.start 0, Ev.stop 5])
      ≤ Stopwatch.get_elapsed_time 32 15
        (runEvs 32 Stopwatch.init
          ([Ev.start 0, Ev.stop 5] ++ [Ev.start 10, Ev.stop 15])) :=
  elapsed_monotone_across_stops 32 5 15 Stopwatch.init
    [Ev.start 0, Ev.stop 5] [Ev.start 10, Ev.stop 15]
    (by decide) (by decide) (by decide)

/-- C10: for any `format_type` other than `"full"`, `"short"`, `"minimal"`,
`get_formatted_time` falls through to the `"{elapsed}ms"` string; it is a
total function, never an error. -/
theorem get_formatted_time_fallback (P now : Nat) (s : Stopwatch) (ft : String)
    (h1 : ft ≠ "full") (h2 : ft ≠ "short") (h3 : ft ≠ "minimal") :
    Stopwatch.get_formatted_time P now s ft
      = toString (Stopwatch.get_elapsed_time P now s) ++ "ms" := by
  simp [Stopwatch.get_formatted_time, h1, h2, h3]

/-- C10 witness: an unrecognized style at a concrete state with 700 elapsed
milliseconds formats as the fallback (which here is `"700ms"`). -/
theorem get_formatted_time_fallback_witness :
    Stopwatch.get_formatted_time 32 0 ⟨0, 700, false⟩ "x"
      = toString (Stopwatch.get_elapsed_time 32 0 ⟨0, 700, false⟩) ++ "ms" :=
  get_formatted_time_fallback 32 0 ⟨0, 700, false⟩ "x"
    (by decide) (by decide) (by decide)
